import Mathlib

/-!
Verification of the message-classifier repository's hybrid decision pipeline:
the rule-based (heuristic) classifier over its pattern tables, the
completeness gate, hint construction, similarity retrieval and the
response-schema validator.  Definitions are shallow embeddings of the
JavaScript source files (`src/heuristics/patterns.js`,
`src/heuristics/classifier.js`, `src/utils/embeddings.js`, `src/schema.js`,
`src/prompts.js`, and the `/classify` handler in `server.js`).

Messages are modelled as `List Char`; the JavaScript regular expressions used
by the pattern tables are alternations of literal words and bounded
character-class repetitions, transcribed here into a small token language
with an executable matcher.  The `/i` flag together with `text.toLowerCase()`
is modelled by matching against the lowercased character list, exactly as
`testPattern` receives `lower` in the source.  Scores are rationals.
-/

namespace MessageClassifier

/-! ### Character classes and the pattern matcher

JavaScript `\w` is `[A-Za-z0-9_]`, `\s` is whitespace, `\d` is `[0-9]`,
`\b` is a word boundary.  Every alternative appearing in the repository's
bounded regexes starts and ends with a word character, so the `\b ( … ) \b`
wrapper amounts to: the character before the match (if any) is not a word
character, and the character after the match (if any) is not a word
character. -/

def isWordChar (c : Char) : Bool :=
  (('a' ≤ c && c ≤ 'z') || ('A' ≤ c && c ≤ 'Z') || ('0' ≤ c && c ≤ '9') || c = '_')

def isSpaceChar (c : Char) : Bool :=
  (c = ' ' || c = '\t' || c = '\n' || c = '\r')

def isDigitChar (c : Char) : Bool :=
  ('0' ≤ c && c ≤ '9')

/-- Character classes occurring in the repository's regexes. -/
inductive CC
  | word
  | space
  | digit
deriving Repr, DecidableEq

def CC.test : CC → Char → Bool
  | .word => isWordChar
  | .space => isSpaceChar
  | .digit => isDigitChar

/-- One token of a regex alternative: a literal string, or a repetition of a
character class with a minimum count and an optional maximum count
(`\w*` is `rep .word 0 none`, `\s+` is `rep .space 1 none`,
`\d{1,2}` is `rep .digit 1 (some 2)`, `\d{2}` is `rep .digit 2 (some 2)`). -/
inductive Tok
  | lit : List Char → Tok
  | rep : CC → Nat → Option Nat → Tok
deriving DecidableEq

/-- All suffixes of `s` remaining after the token matches a prefix of `s`
(existential semantics, as regex backtracking provides). -/
def tokEnds : Tok → List Char → List (List Char)
  | .lit w, s => if w.isPrefixOf s then [s.drop w.length] else []
  | .rep cc mn mx, s =>
      let run := (s.takeWhile cc.test).length
      let hi := match mx with
        | some m => min m run
        | none => run
      if mn > hi then []
      else (List.range (hi - mn + 1)).map (fun i => s.drop (mn + i))

/-- All suffixes remaining after a whole alternative (token sequence) matches
a prefix of `s`. -/
def matchToks : List Tok → List Char → List (List Char)
  | [], s => [s]
  | t :: ts, s => (tokEnds t s).flatMap (matchToks ts)

/-- A regex as used in the pattern tables: a disjunction of alternatives,
optionally wrapped in `\b ( … ) \b`. -/
structure Pattern where
  alts : List (List Tok)
  bounded : Bool
deriving DecidableEq

/-- Word-boundary condition after the match: end of string, or a non-word
character follows. -/
def boundaryOk (s : List Char) : Bool :=
  match s with
  | [] => true
  | c :: _ => !isWordChar c

/-- Does some alternative match at the current position?  `prevNonWord`
records whether the character before the position (if any) is a non-word
character. -/
def altAt (bounded : Bool) (alt : List Tok) (prevNonWord : Bool) (s : List Char) : Bool :=
  (!bounded || prevNonWord) && (matchToks alt s).any (fun suf => !bounded || boundaryOk suf)

/-- Scan every position of the string for a match of some alternative. -/
def searchAux (p : Pattern) (prevNonWord : Bool) (s : List Char) : Bool :=
  (p.alts.any fun alt => altAt p.bounded alt prevNonWord s) ||
    match s with
    | [] => false
    | c :: rest => searchAux p (!isWordChar c) rest

/-- `regex.test(s)` for the transcribed pattern. -/
def pmatch (p : Pattern) (s : List Char) : Bool :=
  searchAux p true s

/-! ### The pattern tables (`src/heuristics/patterns.js`) -/

/-- Alternative consisting of one literal word or phrase. -/
def w (s : String) : List Tok := [Tok.lit s.toList]

/-- Alternative `word\w*`: a literal stem followed by any run of word
characters. -/
def stem (s : String) : List Tok := [Tok.lit s.toList, Tok.rep .word 0 none]

/-- Alternative `by\s+<day>`. -/
def byDay (d : String) : List Tok :=
  [Tok.lit "by".toList, Tok.rep .space 1 none, Tok.lit d.toList]

/-- Alternative `by\s+end\s+of\s+<unit>`. -/
def byEndOf (u : String) : List Tok :=
  [Tok.lit "by".toList, Tok.rep .space 1 none, Tok.lit "end".toList,
   Tok.rep .space 1 none, Tok.lit "of".toList, Tok.rep .space 1 none, Tok.lit u.toList]

/-- Alternative `\d{1,2}\/\d{1,2}`. -/
def dateAlt : List Tok :=
  [Tok.rep .digit 1 (some 2), Tok.lit "/".toList, Tok.rep .digit 1 (some 2)]

/-- Alternative `\d{1,2}:\d{2}`. -/
def clockAlt : List Tok :=
  [Tok.rep .digit 1 (some 2), Tok.lit ":".toList, Tok.rep .digit 2 (some 2)]

/-- Guard `(text) => !/\?/.test(text)`: the original-case text contains no
question mark. -/
def noQuestion (text : List Char) : Bool :=
  !(text.any (fun c => c = '?'))

/-- A business pattern rule: regex, category, optional guard. -/
structure BPattern where
  regex : Pattern
  type : String
  condition : Option (List Char → Bool) := none

/-- A tier of business rules sharing one score. -/
structure BTier where
  score : ℚ
  patterns : List BPattern

/-- A time-sensitivity tier: one regex, a score, optional guard. -/
structure TimeTier where
  score : ℚ
  regex : Pattern
  condition : Option (List Char → Bool) := none

/-- A reply rule: one regex, a boolean verdict, optional guard. -/
structure ReplyRule where
  value : Bool
  regex : Pattern
  condition : Option (List Char → Bool) := none

def BUSINESS_HIGH_VALUE : BTier :=
  { score := 1
    patterns :=
      [ { regex := { bounded := true
                     alts := [w "book", w "booking", w "reserve", w "hire", w "event",
                              w "gig", w "performance", w "rate"] }
          type := "Booking" }
      , { regex := { bounded := true
                     alts := [w "invoice", w "payment", w "paid", w "pay"] }
          type := "Invoice" }
      , { regex := { bounded := true, alts := [w "refund"] }
          type := "Refund" }
      , { regex := { bounded := true, alts := [w "contract"] }
          type := "Booking" } ] }

def BUSINESS_MEDIUM_HIGH_VALUE : BTier :=
  { score := 7/10
    patterns :=
      [ { regex := { bounded := true
                     alts := [stem "collab", stem "partner", w "work together"] }
          type := "Collab" }
      , { regex := { bounded := true
                     alts := [w "brand", stem "sponsor", w "campaign", w "ambassador",
                              stem "promot", w "marketing"] }
          type := "Brand reaching" }
      , { regex := { bounded := true
                     alts := [w "feature", w "request", stem "suggest", stem "add",
                              w "improvement", w "bug", w "issue"] }
          type := "Feature" }
      , { regex := { bounded := true
                     alts := [w "affiliate", w "commission", w "referral"] }
          type := "Affiliate" } ] }

def BUSINESS_MEDIUM_VALUE : BTier :=
  { score := 2/5
    patterns :=
      [ { regex := { bounded := true
                     alts := [w "shop", w "merch", w "discount", w "buy", w "purchase"] }
          type := "General" } ] }

def BUSINESS_LOW_VALUE : BTier :=
  { score := 0
    patterns :=
      [ { regex := { bounded := true
                     alts := [w "love", w "amazing", w "great", w "awesome", w "fantastic",
                              w "excellent", w "beautiful", w "wonderful"] }
          type := "General"
          condition := some noQuestion } ] }

def TIME_URGENT : TimeTier :=
  { score := 1
    regex :=
      { bounded := true
        alts := [w "today", w "tonight", w "asap", w "urgent", w "immediately",
                 w "right now",
                 byDay "monday", byDay "tuesday", byDay "wednesday", byDay "thursday",
                 byDay "friday", byDay "saturday", byDay "sunday",
                 byDay "mon", byDay "tue", byDay "wed", byDay "thu", byDay "fri",
                 byDay "sat", byDay "sun",
                 byEndOf "day", byEndOf "week",
                 dateAlt, clockAlt] } }

def TIME_SOON : TimeTier :=
  { score := 7/10
    regex :=
      { bounded := true
        alts := [w "next week", w "soon", w "confirm", w "shipped yet", w "when",
                 w "deadline"] } }

def TIME_PLANNING : TimeTier :=
  { score := 2/5
    regex :=
      { bounded := true
        alts := [w "how long", w "planning", w "schedule", w "rate", w "timeline"] } }

def TIME_CASUAL : TimeTier :=
  { score := 0
    regex :=
      { bounded := true
        alts := [w "love", w "amazing", w "great", w "awesome", w "fantastic",
                 w "excellent", w "beautiful", w "wonderful", w "thank", w "thanks",
                 w "appreciate", w "congrat"] }
    condition := some noQuestion }

def REPLY_NEEDS_REPLY : ReplyRule :=
  { value := true
    regex :=
      { bounded := false
        alts := [w "?", w "can you", w "would you", w "could you", w "please",
                 w "let me know", w "confirm", w "need", w "want to", w "interested",
                 w "available"] } }

def REPLY_NO_REPLY : ReplyRule :=
  { value := false
    regex :=
      { bounded := true
        alts := [w "love", w "thank", w "thanks", w "appreciate", w "congrat",
                 w "awesome", w "amazing", w "great work"] }
    condition := some noQuestion }

/-! ### The rule classifier (`src/heuristics/classifier.js`) -/

/-- Shared core of `testPattern`: the regex must match the lowercased text,
and when present the guard must accept the original-case text. -/
def testRC (regex : Pattern) (condition : Option (List Char → Bool))
    (text lower : List Char) : Bool :=
  if !(pmatch regex lower) then false
  else
    match condition with
    | some cond => cond text
    | none => true

def testPattern (p : BPattern) (text lower : List Char) : Bool :=
  testRC p.regex p.condition text lower

def testTime (t : TimeTier) (text lower : List Char) : Bool :=
  testRC t.regex t.condition text lower

def testReply (r : ReplyRule) (text lower : List Char) : Bool :=
  testRC r.regex r.condition text lower

/-- Does some rule of the tier fire on the message?  This names the body of
each `for … return` loop in `classifyBusinessValue`. -/
def tierFires (t : BTier) (text lower : List Char) : Bool :=
  t.patterns.any (fun p => testPattern p text lower)

/-- Walks the four business tiers in order, returning the score of the first
tier containing a rule whose `testPattern` fires. -/
def classifyBusinessValue (text lower : List Char) : Option ℚ :=
  if tierFires BUSINESS_HIGH_VALUE text lower then
    some BUSINESS_HIGH_VALUE.score
  else if tierFires BUSINESS_MEDIUM_HIGH_VALUE text lower then
    some BUSINESS_MEDIUM_HIGH_VALUE.score
  else if tierFires BUSINESS_MEDIUM_VALUE text lower then
    some BUSINESS_MEDIUM_VALUE.score
  else if tierFires BUSINESS_LOW_VALUE text lower then
    some BUSINESS_LOW_VALUE.score
  else
    none

/-- The business tiers in the order `Object.values(BUSINESS_PATTERNS)`
enumerates them (insertion order). -/
def businessTiers : List BTier :=
  [BUSINESS_HIGH_VALUE, BUSINESS_MEDIUM_HIGH_VALUE, BUSINESS_MEDIUM_VALUE,
   BUSINESS_LOW_VALUE]

/-- Walks every rule of every business tier in order and returns the `type`
of the first rule whose `testPattern` fires. -/
def classifyFocusType (text lower : List Char) : Option String :=
  ((businessTiers.flatMap (·.patterns)).find? (fun p => testPattern p text lower)).map
    (·.type)

/-- Walks the four time tiers Urgent, Soon, Planning, Casual in order. -/
def classifyTimeSensitivity (text lower : List Char) : Option ℚ :=
  if testTime TIME_URGENT text lower then some TIME_URGENT.score
  else if testTime TIME_SOON text lower then some TIME_SOON.score
  else if testTime TIME_PLANNING text lower then some TIME_PLANNING.score
  else if testTime TIME_CASUAL text lower then some TIME_CASUAL.score
  else none

/-- Tests the needs-reply rule, then the no-reply rule. -/
def classifyReplyNeeded (text lower : List Char) : Option Bool :=
  if testReply REPLY_NEEDS_REPLY text lower then some REPLY_NEEDS_REPLY.value
  else if testReply REPLY_NO_REPLY text lower then some REPLY_NO_REPLY.value
  else none

/-- The rule classifier's output: each field independently resolved or
null. -/
structure HeuristicResult where
  business_value_score : Option ℚ
  time_sensitive_score : Option ℚ
  needs_reply : Option Bool
  focus_summary_type : Option String

def heuristicClassify (text : List Char) : HeuristicResult :=
  let lower := text.map Char.toLower
  { business_value_score := classifyBusinessValue text lower
    focus_summary_type := classifyFocusType text lower
    time_sensitive_score := classifyTimeSensitivity text lower
    needs_reply := classifyReplyNeeded text lower }

/-- `isHeuristicConclusive`: all four fields non-null. -/
def isHeuristicConclusive (h : HeuristicResult) : Bool :=
  h.business_value_score.isSome && h.time_sensitive_score.isSome &&
    h.needs_reply.isSome && h.focus_summary_type.isSome

/-- `getHeuristicConfidence`: one quarter per non-null field. -/
def getHeuristicConfidence (h : HeuristicResult) : ℚ :=
  let c : ℚ := 0
  let c := if h.business_value_score.isSome then c + 1/4 else c
  let c := if h.time_sensitive_score.isSome then c + 1/4 else c
  let c := if h.needs_reply.isSome then c + 1/4 else c
  let c := if h.focus_summary_type.isSome then c + 1/4 else c
  c

/-- Number of non-null fields of a heuristic result (the spec's count used
in `confidence = count / 4`). -/
def countNonNull (h : HeuristicResult) : ℕ :=
  (if h.business_value_score.isSome then 1 else 0) +
  (if h.time_sensitive_score.isSome then 1 else 0) +
  (if h.needs_reply.isSome then 1 else 0) +
  (if h.focus_summary_type.isSome then 1 else 0)

/-! ### Spec-side description of the business walk (for the refinement
claim about `classifyBusinessValue` / `classifyFocusType`) -/

/-- Modelled from the spec's words: the first tier, in priority order, in
which some rule fires. -/
def specFirstTier (text lower : List Char) : Option BTier :=
  businessTiers.find? (fun t => tierFires t text lower)

/-- Modelled from the spec's words: the score of the first firing tier. -/
def specBusinessScore (text lower : List Char) : Option ℚ :=
  (specFirstTier text lower).map (·.score)

/-- Modelled from the spec's words: the category of the first firing rule of
the first firing tier. -/
def specFocusType (text lower : List Char) : Option String :=
  (specFirstTier text lower).bind
    (fun t => (t.patterns.find? (fun p => testPattern p text lower)).map (·.type))

/-! ### Hint construction (`buildHintsFromHeuristic` in `src/prompts.js`,
mirrored inline by the `/classify` handler) -/

/-- Renders a score the way JavaScript template interpolation renders the
numbers occurring in the tables (`0` → "0", `0.4` → "0.4", `0.7` → "0.7",
`1` → "1"). -/
def ratToJS (q : ℚ) : String :=
  if q.den = 1 then toString q.num
  else if q.den ∣ 10 then
    let n : ℤ := q.num * ((10 : ℤ) / (q.den : ℤ))
    toString (n / 10) ++ "." ++ toString (n % 10)
  else toString q.num ++ "/" ++ toString q.den

def buildHintsFromHeuristic (h : HeuristicResult) : List String :=
  (match h.business_value_score with
   | some q => ["Suggested business_value_score: " ++ ratToJS q]
   | none => []) ++
  (match h.time_sensitive_score with
   | some q => ["Suggested time_sensitive_score: " ++ ratToJS q]
   | none => []) ++
  (match h.needs_reply with
   | some b => ["Suggested needs_reply: " ++ (if b then "true" else "false")]
   | none => []) ++
  (match h.focus_summary_type with
   | some t => ["Suggested focus_summary_type: " ++ t]
   | none => [])

/-! ### Response schema (`src/schema.js`)

The raw parsed model response is modelled as a JSON object: an association
list from field names to JSON values.  `ClassificationSchema.parse` checks
each required field and strips unrecognized keys (the returned record
carries only the five schema fields). -/

inductive JValue
  | jbool (b : Bool)
  | jnum (q : ℚ)
  | jstr (s : String)
  | jnull
deriving DecidableEq, Repr

abbrev JObject := List (String × JValue)

def lookupField (data : JObject) (k : String) : Option JValue :=
  (data.find? (fun kv => kv.1 = k)).map (·.2)

def FocusSummaryTypes : List String :=
  ["Booking", "Collab", "Brand reaching", "Feature", "Invoice", "Refund",
   "Affiliate", "General"]

/-- The validated classification record: exactly the five schema fields. -/
structure Classification where
  needs_reply : Bool
  time_sensitive_score : ℚ
  business_value_score : ℚ
  focus_summary_type : String
  reason : String
deriving DecidableEq, Repr

def getBoolField (data : JObject) (k : String) : Except String Bool :=
  match lookupField data k with
  | none => .error (k ++ " is required")
  | some (.jbool b) => .ok b
  | some _ => .error (k ++ " must be a boolean")

def getScoreField (data : JObject) (k : String) : Except String ℚ :=
  match lookupField data k with
  | none => .error (k ++ " is required")
  | some (.jnum q) =>
      if q < 0 then .error (k ++ " must be >= 0")
      else if 1 < q then .error (k ++ " must be <= 1")
      else .ok q
  | some _ => .error (k ++ " must be a number")

def getEnumField (data : JObject) (k : String) : Except String String :=
  match lookupField data k with
  | none => .error (k ++ " is required")
  | some (.jstr s) =>
      if s ∈ FocusSummaryTypes then .ok s
      else .error (k ++ " must be one of the valid focus types")
  | some _ => .error (k ++ " must be a valid focus type")

def getReasonField (data : JObject) (k : String) : Except String String :=
  match lookupField data k with
  | none => .error (k ++ " is required")
  | some (.jstr s) =>
      if s.length ≥ 1 then .ok s
      else .error (k ++ " cannot be empty")
  | some _ => .error (k ++ " must be a string")

/-- `validateClassification`: parse the five required fields, failing on a
missing field, a wrong type, an out-of-range score, an invalid category or
an empty reason; on success the record carries only the schema fields, so
unrecognized extras are stripped. -/
def validateClassification (data : JObject) : Except String Classification := do
  let nr ← getBoolField data "needs_reply"
  let ts ← getScoreField data "time_sensitive_score"
  let bv ← getScoreField data "business_value_score"
  let ft ← getEnumField data "focus_summary_type"
  let rs ← getReasonField data "reason"
  pure { needs_reply := nr, time_sensitive_score := ts, business_value_score := bv,
         focus_summary_type := ft, reason := rs }

/-- The spec's success condition, stated independently of the parser: every
required field is present with the right type and within its constraints. -/
def ValidInput (data : JObject) : Prop :=
  (∃ b, lookupField data "needs_reply" = some (.jbool b)) ∧
  (∃ q, lookupField data "time_sensitive_score" = some (.jnum q) ∧ 0 ≤ q ∧ q ≤ 1) ∧
  (∃ q, lookupField data "business_value_score" = some (.jnum q) ∧ 0 ≤ q ∧ q ≤ 1) ∧
  (∃ s, lookupField data "focus_summary_type" = some (.jstr s) ∧ s ∈ FocusSummaryTypes) ∧
  (∃ s, lookupField data "reason" = some (.jstr s) ∧ s ≠ "")

/-! ### The `/classify` handler's conclusive branch (`server.js`)

When the heuristic result is conclusive the handler promotes its four fields
directly to the final classification, synthesizing the reason string, and
skips both the model call and `validateClassification`.  The `getD`
defaults below are never exercised under the conclusive hypothesis the
theorems carry. -/

def heuristicFinalResult (text : List Char) : Classification :=
  let h := heuristicClassify text
  { needs_reply := h.needs_reply.getD false
    time_sensitive_score := h.time_sensitive_score.getD 0
    business_value_score := h.business_value_score.getD 0
    focus_summary_type := h.focus_summary_type.getD ""
    reason := "Pattern-matched as " ++ (h.focus_summary_type.getD "").toLower ++
              " with clear indicators" }

/-! ### Similarity retrieval (`src/utils/embeddings.js`)

Embedding vectors are lists of real numbers.  `cosine` throws on a length
mismatch, returns 0 when either Euclidean norm is 0, and otherwise divides
the dot product by the product of the norms.  `findSimilarExamples`
annotates every corpus example with its similarity to the message embedding,
sorts descending by similarity (the JavaScript comparator
`(a, b) => b.similarity - a.similarity`) and keeps the first `k` (the
source's default for `k` is 3).  The module-level corpus loaded at startup
is passed here explicitly. -/

noncomputable section
open scoped Classical

/-- The fold `a.reduce((sum, x, i) => sum + x * b[i], 0)`: for equal-length
vectors this is the dot product. -/
def dotList (a b : List ℝ) : ℝ := (List.zipWith (fun x y => x * y) a b).sum

/-- The fold `v.reduce((s, x) => s + x * x, 0)`. -/
def sumSq (a : List ℝ) : ℝ := (a.map (fun x => x * x)).sum

/-- Euclidean norm `Math.sqrt(v.reduce((s, x) => s + x * x, 0))`. -/
def normE (a : List ℝ) : ℝ := Real.sqrt (sumSq a)

def cosine (a b : List ℝ) : Except String ℝ :=
  if a.length ≠ b.length then .error "Vectors must have the same length"
  else if normE a = 0 ∨ normE b = 0 then .ok 0
  else .ok (dotList a b / (normE a * normE b))

/-- Retrieval corpus entry: message text, gold classification, precomputed
embedding. -/
structure CorpusExample where
  message : String
  classification : Classification
  embedding : List ℝ

/-- A corpus example annotated with its similarity to the current message. -/
structure SimilarityHit where
  message : String
  classification : Classification
  similarity : ℝ

/-- Annotates one corpus example with its similarity, propagating the
exception `cosine` may throw. -/
def hitOfExample (messageEmbedding : List ℝ) (ex : CorpusExample) :
    Except String SimilarityHit :=
  match cosine ex.embedding messageEmbedding with
  | .error e => .error e
  | .ok s => .ok { message := ex.message, classification := ex.classification,
                   similarity := s }

/-- The sort comparator `(a, b) => b.similarity - a.similarity`: `a` may
precede `b` exactly when `a` is at least as similar. -/
def hitLE (a b : SimilarityHit) : Bool :=
  decide (b.similarity ≤ a.similarity)

def findSimilarExamples (corpus : List CorpusExample) (message : String)
    (messageEmbedding : List ℝ) (k : Nat) : Except String (List SimilarityHit) :=
  if corpus.isEmpty then .ok []
  else
    match corpus.mapM (hitOfExample messageEmbedding) with
    | .error e => .error e
    | .ok similarities =>
        .ok ((similarities.mergeSort hitLE).take k)

/-- The similarity value `cosine` returns on equal-length vectors. -/
def cosineVal (a b : List ℝ) : ℝ :=
  if normE a = 0 ∨ normE b = 0 then 0 else dotList a b / (normE a * normE b)

/-- The hit built for one example on the exception-free path. -/
def hitG (messageEmbedding : List ℝ) (ex : CorpusExample) : SimilarityHit :=
  { message := ex.message, classification := ex.classification,
    similarity := cosineVal ex.embedding messageEmbedding }

end

/-! ## Theorems -/

/-- C1: for every heuristic result, `isHeuristicConclusive` is true exactly
when all four fields are non-null, and `getHeuristicConfidence` equals the
number of non-null fields divided by 4 — a value in
{0, 0.25, 0.5, 0.75, 1} that is 1 exactly when the result is conclusive and
0 exactly when all four fields are null. -/
theorem conclusive_and_confidence_spec (h : HeuristicResult) :
    (isHeuristicConclusive h = true ↔
      (h.business_value_score.isSome = true ∧ h.time_sensitive_score.isSome = true ∧
       h.needs_reply.isSome = true ∧ h.focus_summary_type.isSome = true)) ∧
    getHeuristicConfidence h = (countNonNull h : ℚ) / 4 ∧
    getHeuristicConfidence h ∈ ([0, 1/4, 1/2, 3/4, 1] : List ℚ) ∧
    (getHeuristicConfidence h = 1 ↔ isHeuristicConclusive h = true) ∧
    (getHeuristicConfidence h = 0 ↔
      (h.business_value_score = none ∧ h.time_sensitive_score = none ∧
       h.needs_reply = none ∧ h.focus_summary_type = none)) := by
  obtain ⟨bv, ts, nr, ft⟩ := h
  cases bv <;> cases ts <;> cases nr <;> cases ft <;>
    simp [isHeuristicConclusive, getHeuristicConfidence, countNonNull] <;> norm_num

/-- Witness for C1 at a fully resolved heuristic result. -/
theorem conclusive_and_confidence_spec_witness :
    getHeuristicConfidence
        { business_value_score := some 1, time_sensitive_score := some 1,
          needs_reply := some true, focus_summary_type := some "Booking" } = 1 ↔
      isHeuristicConclusive
        { business_value_score := some 1, time_sensitive_score := some 1,
          needs_reply := some true, focus_summary_type := some "Booking" } = true :=
  (conclusive_and_confidence_spec
    { business_value_score := some 1, time_sensitive_score := some 1,
      needs_reply := some true, focus_summary_type := some "Booking" }).2.2.2.1

/-- Generic decomposition: the first firing rule over the concatenated tier
list lies in the first tier that has any firing rule. -/
theorem find?_flatMap_tiers (tiers : List BTier) (text lower : List Char) :
    ((tiers.flatMap (·.patterns)).find? (fun p => testPattern p text lower)) =
      (tiers.find? (fun t => tierFires t text lower)).bind
        (fun t => t.patterns.find? (fun p => testPattern p text lower)) := by
  induction tiers with
  | nil => rfl
  | cons t ts ih =>
      by_cases hf : tierFires t text lower
      · simp only [List.flatMap_cons, List.find?_append, List.find?_cons_of_pos,
          hf, Option.some_bind]
        have : ((t.patterns.find? (fun p => testPattern p text lower)).isSome) := by
          rcases List.any_eq_true.mp hf with ⟨p, hp, htest⟩
          exact List.find?_isSome.mpr ⟨p, hp, htest⟩
        rcases Option.isSome_iff_exists.mp this with ⟨p, hp⟩
        simp [hp]
      · have hnone : t.patterns.find? (fun p => testPattern p text lower) = none :=
          List.find?_eq_none.mpr (by
            intro x hx hcontra
            exact hf (List.any_eq_true.mpr ⟨x, hx, hcontra⟩))
        have hfb : tierFires t text lower = false := by
          simpa using hf
        simp [List.flatMap_cons, List.find?_append, hnone, List.find?, hfb, ih]

/-- C2: the business-value walk and the focus-type walk, though computed by
two separate passes over the same table, agree with the single spec-side
walk: the score is the first firing tier's score, the focus type is the
category of the first firing rule of that same tier, and one field is null
exactly when the other is. -/
theorem business_walks_agree (text lower : List Char) :
    classifyBusinessValue text lower = specBusinessScore text lower ∧
    classifyFocusType text lower = specFocusType text lower ∧
    ((classifyBusinessValue text lower).isSome = true ↔
      (classifyFocusType text lower).isSome = true) := by
  have hft : classifyFocusType text lower = specFocusType text lower := by
    rw [classifyFocusType, specFocusType, specFirstTier, find?_flatMap_tiers]
    cases businessTiers.find? (fun t => tierFires t text lower) with
    | none => rfl
    | some t => simp [Option.map_bind]
  have hbv : classifyBusinessValue text lower = specBusinessScore text lower := by
    rw [specBusinessScore, specFirstTier, businessTiers]
    by_cases h1 : tierFires BUSINESS_HIGH_VALUE text lower <;>
      by_cases h2 : tierFires BUSINESS_MEDIUM_HIGH_VALUE text lower <;>
        by_cases h3 : tierFires BUSINESS_MEDIUM_VALUE text lower <;>
          by_cases h4 : tierFires BUSINESS_LOW_VALUE text lower <;>
            simp [classifyBusinessValue, List.find?, h1, h2, h3, h4]
  refine ⟨hbv, hft, ?_⟩
  rw [hbv, hft, specBusinessScore, specFocusType, specFirstTier]
  cases hfind : businessTiers.find? (fun t => tierFires t text lower) with
  | none => simp
  | some t =>
      have hfire : tierFires t text lower = true := by
        have := List.find?_some hfind
        simpa using this
      rcases List.any_eq_true.mp hfire with ⟨p, hp, htest⟩
      have hsome : (t.patterns.find? (fun p => testPattern p text lower)).isSome :=
        List.find?_isSome.mpr ⟨p, hp, htest⟩
      rcases Option.isSome_iff_exists.mp hsome with ⟨p', hp'⟩
      simp [hp']

/-- Witness for C2 at a concrete booking message. -/
theorem business_walks_agree_witness :
    classifyBusinessValue "book me".toList "book me".toList =
      specBusinessScore "book me".toList "book me".toList :=
  (business_walks_agree "book me".toList "book me".toList).1

/-- Helper: a rule guarded by the no-question-mark predicate cannot fire on
a text containing a question mark, whatever its regex does. -/
theorem testRC_guard_false (regex : Pattern) (text lower : List Char)
    (h : noQuestion text = false) :
    testRC regex (some noQuestion) text lower = false := by
  unfold testRC
  cases pmatch regex lower <;> simp [h]

/-- C3: the praise-based low-value rule, the casual time rule and the
no-reply rule are all disabled on any message containing a question mark;
the message with the trailing question resolves needs_reply true via the
needs-reply trigger, while the plain praise message resolves business 0.0,
time 0.0 and needs_reply false. -/
theorem question_mark_disables_praise_rules (text lower : List Char) (hq : '?' ∈ text) :
    (∀ p ∈ BUSINESS_LOW_VALUE.patterns, testPattern p text lower = false) ∧
    testTime TIME_CASUAL text lower = false ∧
    testReply REPLY_NO_REPLY text lower = false ∧
    (heuristicClassify "Your work is amazing, can you confirm Friday?".toList).needs_reply
      = some true ∧
    (heuristicClassify "Your work is amazing!".toList).business_value_score = some 0 ∧
    (heuristicClassify "Your work is amazing!".toList).time_sensitive_score = some 0 ∧
    (heuristicClassify "Your work is amazing!".toList).needs_reply = some false := by
  have hnq : noQuestion text = false := by
    simp only [noQuestion, Bool.not_eq_false']
    exact List.any_eq_true.mpr ⟨'?', hq, by simp⟩
  refine ⟨?_, ?_, ?_, by decide, by decide, by decide, by decide⟩
  · intro p hp
    simp only [BUSINESS_LOW_VALUE, List.mem_singleton] at hp
    subst hp
    exact testRC_guard_false _ text lower hnq
  · exact testRC_guard_false _ text lower hnq
  · exact testRC_guard_false _ text lower hnq

/-- Witness for C3 at a concrete questioning message. -/
theorem question_mark_disables_praise_rules_witness :
    ('?' ∈ "ok?".toList) ∧
    testTime TIME_CASUAL "ok?".toList "ok?".toList = false :=
  ⟨by decide,
   (question_mark_disables_praise_rules "ok?".toList "ok?".toList (by decide)).2.1⟩

/-- Helper: enlarging the alternative set of a pattern (same boundedness)
preserves any match. -/
theorem searchAux_mono {p q : Pattern} (hb : q.bounded = p.bounded)
    (halts : ∀ a ∈ p.alts, a ∈ q.alts) :
    ∀ (s : List Char) (prev : Bool), searchAux p prev s = true → searchAux q prev s = true := by
  intro s
  induction s with
  | nil =>
      intro prev h
      rw [searchAux] at h ⊢
      simp only [Bool.or_false] at h ⊢
      rcases List.any_eq_true.mp h with ⟨alt, halt, hat⟩
      exact List.any_eq_true.mpr ⟨alt, halts alt halt, by rw [hb]; exact hat⟩
  | cons c rest ih =>
      intro prev h
      rw [searchAux] at h ⊢
      simp only [Bool.or_eq_true] at h ⊢
      rcases h with h | h
      · rcases List.any_eq_true.mp h with ⟨alt, halt, hat⟩
        exact Or.inl (List.any_eq_true.mpr ⟨alt, halts alt halt, by rw [hb]; exact hat⟩)
      · exact Or.inr (ih _ h)

theorem pmatch_mono {p q : Pattern} (hb : q.bounded = p.bounded)
    (halts : ∀ a ∈ p.alts, a ∈ q.alts) (s : List Char) (h : pmatch p s = true) :
    pmatch q s = true :=
  searchAux_mono hb halts s true h

/-- The claim's hypothesis, stated with the same matcher: an explicit
urgency keyword as a word of the message. -/
def urgencyKeywordPattern : Pattern :=
  { bounded := true, alts := [w "asap", w "today", w "tonight"] }

/-- The claim's hypothesis: a `by <day-of-week>` deadline phrase. -/
def byDayPattern : Pattern :=
  { bounded := true
    alts := [byDay "monday", byDay "tuesday", byDay "wednesday", byDay "thursday",
             byDay "friday", byDay "saturday", byDay "sunday", byDay "mon", byDay "tue",
             byDay "wed", byDay "thu", byDay "fri", byDay "sat", byDay "sun"] }

/-- C8: any message containing an explicit urgency keyword as a word, or a
day-of-week deadline phrase, resolves time sensitivity to 1.0 — the Urgent
tier is tested first and carries no guard, so nothing can preempt it. -/
theorem urgency_forces_time_one (text lower : List Char)
    (h : pmatch urgencyKeywordPattern lower = true ∨ pmatch byDayPattern lower = true) :
    classifyTimeSensitivity text lower = some 1 := by
  have hurg : pmatch TIME_URGENT.regex lower = true := by
    rcases h with h | h
    · exact @pmatch_mono urgencyKeywordPattern TIME_URGENT.regex rfl (by decide) lower h
    · exact @pmatch_mono byDayPattern TIME_URGENT.regex rfl (by decide) lower h
  have htest : testTime TIME_URGENT text lower = true := by
    unfold testTime testRC
    rw [show TIME_URGENT.condition = none from rfl, hurg]
    simp
  rw [show (1 : ℚ) = TIME_URGENT.score from rfl]
  simp [classifyTimeSensitivity, htest]

/-- Witness for C8 on a concrete urgent message. -/
theorem urgency_forces_time_one_witness :
    (pmatch urgencyKeywordPattern "do it asap".toList = true ∨
      pmatch byDayPattern "do it asap".toList = true) ∧
    classifyTimeSensitivity "Do it ASAP".toList "do it asap".toList = some 1 :=
  ⟨Or.inl (by decide),
   urgency_forces_time_one "Do it ASAP".toList "do it asap".toList (Or.inl (by decide))⟩

/-- C9: the hint list contains exactly one line per non-null field — its
length is the count of non-null fields, it is empty exactly when all four
fields are null, each non-null field contributes its line, and every line
comes from a non-null field carrying that field's resolved value. -/
theorem hints_mirror_fields (h : HeuristicResult) :
    (buildHintsFromHeuristic h).length = countNonNull h ∧
    (buildHintsFromHeuristic h = [] ↔
      (h.business_value_score = none ∧ h.time_sensitive_score = none ∧
       h.needs_reply = none ∧ h.focus_summary_type = none)) ∧
    (∀ q, h.business_value_score = some q →
      ("Suggested business_value_score: " ++ ratToJS q) ∈ buildHintsFromHeuristic h) ∧
    (∀ q, h.time_sensitive_score = some q →
      ("Suggested time_sensitive_score: " ++ ratToJS q) ∈ buildHintsFromHeuristic h) ∧
    (∀ b, h.needs_reply = some b →
      ("Suggested needs_reply: " ++ (if b then "true" else "false"))
        ∈ buildHintsFromHeuristic h) ∧
    (∀ t, h.focus_summary_type = some t →
      ("Suggested focus_summary_type: " ++ t) ∈ buildHintsFromHeuristic h) ∧
    (∀ line ∈ buildHintsFromHeuristic h,
      (∃ q, h.business_value_score = some q ∧
        line = "Suggested business_value_score: " ++ ratToJS q) ∨
      (∃ q, h.time_sensitive_score = some q ∧
        line = "Suggested time_sensitive_score: " ++ ratToJS q) ∨
      (∃ b, h.needs_reply = some b ∧
        line = "Suggested needs_reply: " ++ (if b then "true" else "false")) ∨
      (∃ t, h.focus_summary_type = some t ∧
        line = "Suggested focus_summary_type: " ++ t)) := by
  obtain ⟨bv, ts, nr, ft⟩ := h
  cases bv <;> cases ts <;> cases nr <;> cases ft <;>
    simp [buildHintsFromHeuristic, countNonNull]

/-- Witness for C9 extracting the hint line of a concretely resolved field. -/
theorem hints_mirror_fields_witness :
    ("Suggested business_value_score: " ++ ratToJS 1) ∈
      buildHintsFromHeuristic
        { business_value_score := some 1, time_sensitive_score := none,
          needs_reply := none, focus_summary_type := none } :=
  (hints_mirror_fields
    { business_value_score := some 1, time_sensitive_score := none,
      needs_reply := none, focus_summary_type := none }).2.2.1 1 rfl

/-- Helper: a string has positive length exactly when it is not the empty
string. -/
theorem one_le_length_iff_ne_empty (s : String) : 1 ≤ s.length ↔ s ≠ "" := by
  rw [Nat.one_le_iff_ne_zero]
  constructor
  · intro h hs; subst hs; exact h rfl
  · intro h hl
    apply h
    apply String.ext
    cases s with
    | mk data => simpa [String.length] using hl

theorem getBoolField_eq_ok (data : JObject) (k : String) (b : Bool) :
    getBoolField data k = .ok b ↔ lookupField data k = some (.jbool b) := by
  unfold getBoolField
  cases hlk : lookupField data k with
  | none => simp
  | some v => cases v <;> simp

theorem getScoreField_eq_ok (data : JObject) (k : String) (q : ℚ) :
    getScoreField data k = .ok q ↔
      (lookupField data k = some (.jnum q) ∧ 0 ≤ q ∧ q ≤ 1) := by
  unfold getScoreField
  cases hlk : lookupField data k with
  | none => simp
  | some v =>
      cases v with
      | jnum r =>
          dsimp only
          split_ifs with h1 h2
          · simp only [reduceCtorEq, Option.some.injEq, JValue.jnum.injEq, false_iff,
              not_and]
            rintro rfl
            intro h0
            exact absurd h1 (by simp [h0])
          · simp only [reduceCtorEq, Option.some.injEq, JValue.jnum.injEq, false_iff,
              not_and]
            rintro rfl
            intro _ h1'
            exact absurd h2 (by simp [h1'])
          · simp only [Except.ok.injEq, Option.some.injEq, JValue.jnum.injEq]
            constructor
            · rintro rfl
              exact ⟨rfl, le_of_not_lt h1, le_of_not_lt h2⟩
            · rintro ⟨rfl, _, _⟩
              rfl
      | jbool b => simp
      | jstr s => simp
      | jnull => simp

theorem getEnumField_eq_ok (data : JObject) (k : String) (s : String) :
    getEnumField data k = .ok s ↔
      (lookupField data k = some (.jstr s) ∧ s ∈ FocusSummaryTypes) := by
  unfold getEnumField
  cases hlk : lookupField data k with
  | none => simp
  | some v =>
      cases v with
      | jstr t =>
          dsimp only
          split_ifs with h1
          · simp only [Except.ok.injEq, Option.some.injEq, JValue.jstr.injEq]
            constructor
            · rintro rfl; exact ⟨rfl, h1⟩
            · rintro ⟨rfl, _⟩; rfl
          · simp only [reduceCtorEq, Option.some.injEq, JValue.jstr.injEq, false_iff,
              not_and]
            rintro rfl
            exact h1
      | jbool b => simp
      | jnum q => simp
      | jnull => simp

theorem getReasonField_eq_ok (data : JObject) (k : String) (s : String) :
    getReasonField data k = .ok s ↔
      (lookupField data k = some (.jstr s) ∧ s ≠ "") := by
  unfold getReasonField
  cases hlk : lookupField data k with
  | none => simp
  | some v =>
      cases v with
      | jstr t =>
          dsimp only
          split_ifs with h1
          · simp only [Except.ok.injEq, Option.some.injEq, JValue.jstr.injEq]
            constructor
            · rintro rfl; exact ⟨rfl, (one_le_length_iff_ne_empty t).mp h1⟩
            · rintro ⟨rfl, _⟩; rfl
          · simp only [reduceCtorEq, Option.some.injEq, JValue.jstr.injEq, false_iff,
              not_and]
            rintro rfl
            exact fun hne => h1 ((one_le_length_iff_ne_empty t).mpr hne)
      | jbool b => simp
      | jnum q => simp
      | jnull => simp

/-- Helper: the validator succeeds with `c` exactly when each of the five
field parsers succeeds with the corresponding field of `c`. -/
theorem validate_eq_ok (data : JObject) (c : Classification) :
    validateClassification data = .ok c ↔
      (getBoolField data "needs_reply" = .ok c.needs_reply ∧
       getScoreField data "time_sensitive_score" = .ok c.time_sensitive_score ∧
       getScoreField data "business_value_score" = .ok c.business_value_score ∧
       getEnumField data "focus_summary_type" = .ok c.focus_summary_type ∧
       getReasonField data "reason" = .ok c.reason) := by
  obtain ⟨nr, ts, bv, ft, rs⟩ := c
  unfold validateClassification
  cases h1 : getBoolField data "needs_reply" <;>
    cases h2 : getScoreField data "time_sensitive_score" <;>
      cases h3 : getScoreField data "business_value_score" <;>
        cases h4 : getEnumField data "focus_summary_type" <;>
          cases h5 : getReasonField data "reason" <;>
            simp [Except.bind, bind, pure, Except.pure]

/-- C5: `validateClassification` fails exactly when a required field is
missing, has the wrong type, a score is out of `[0,1]`, the category is not
one of the eight valid focus types, or the reason string is empty; on
success the returned record carries exactly the input's five schema fields
(extras stripped by construction of the result type). -/
theorem validator_contract (data : JObject) :
    ((∃ c, validateClassification data = .ok c) ↔ ValidInput data) ∧
    ((∃ e, validateClassification data = .error e) ↔ ¬ ValidInput data) ∧
    (∀ c, validateClassification data = .ok c →
      lookupField data "needs_reply" = some (.jbool c.needs_reply) ∧
      lookupField data "time_sensitive_score" = some (.jnum c.time_sensitive_score) ∧
      lookupField data "business_value_score" = some (.jnum c.business_value_score) ∧
      lookupField data "focus_summary_type" = some (.jstr c.focus_summary_type) ∧
      lookupField data "reason" = some (.jstr c.reason)) := by
  have hok : (∃ c, validateClassification data = .ok c) ↔ ValidInput data := by
    constructor
    · rintro ⟨c, hc⟩
      rw [validate_eq_ok] at hc
      obtain ⟨h1, h2, h3, h4, h5⟩ := hc
      rw [getBoolField_eq_ok] at h1
      rw [getScoreField_eq_ok] at h2
      rw [getScoreField_eq_ok] at h3
      rw [getEnumField_eq_ok] at h4
      rw [getReasonField_eq_ok] at h5
      exact ⟨⟨c.needs_reply, h1⟩,
             ⟨c.time_sensitive_score, h2.1, h2.2.1, h2.2.2⟩,
             ⟨c.business_value_score, h3.1, h3.2.1, h3.2.2⟩,
             ⟨c.focus_summary_type, h4.1, h4.2⟩,
             ⟨c.reason, h5.1, h5.2⟩⟩
    · rintro ⟨⟨b, hb⟩, ⟨q1, hq1, h01, h11⟩, ⟨q2, hq2, h02, h12⟩, ⟨s, hs, hsmem⟩,
        ⟨r, hr, hrne⟩⟩
      refine ⟨⟨b, q1, q2, s, r⟩, ?_⟩
      rw [validate_eq_ok]
      exact ⟨(getBoolField_eq_ok _ _ _).mpr hb,
             (getScoreField_eq_ok _ _ _).mpr ⟨hq1, h01, h11⟩,
             (getScoreField_eq_ok _ _ _).mpr ⟨hq2, h02, h12⟩,
             (getEnumField_eq_ok _ _ _).mpr ⟨hs, hsmem⟩,
             (getReasonField_eq_ok _ _ _).mpr ⟨hr, hrne⟩⟩
  refine ⟨hok, ?_, ?_⟩
  · cases hveq : validateClassification data with
    | ok c =>
        have hvi : ValidInput data := hok.mp ⟨c, hveq⟩
        simp [hveq, hvi]
    | error e =>
        have hni : ¬ ValidInput data := by
          intro hvi
          rcases hok.mpr hvi with ⟨c, hc⟩
          rw [hveq] at hc
          exact Except.noConfusion hc
        simp [hveq, hni]
  · intro c hc
    rw [validate_eq_ok] at hc
    obtain ⟨h1, h2, h3, h4, h5⟩ := hc
    exact ⟨(getBoolField_eq_ok _ _ _).mp h1,
           ((getScoreField_eq_ok _ _ _).mp h2).1,
           ((getScoreField_eq_ok _ _ _).mp h3).1,
           ((getEnumField_eq_ok _ _ _).mp h4).1,
           ((getReasonField_eq_ok _ _ _).mp h5).1⟩

/-- A fully valid raw model response carrying one unrecognized extra
field. -/
def validRecord : JObject :=
  [("needs_reply", .jbool true), ("time_sensitive_score", .jnum 1),
   ("business_value_score", .jnum 0), ("focus_summary_type", .jstr "Booking"),
   ("reason", .jstr "Urgent booking request"), ("extra_field", .jstr "ignored")]

/-- A raw response with `time_sensitive_score = 1.5`. -/
def badScoreRecord : JObject :=
  [("needs_reply", .jbool true), ("time_sensitive_score", .jnum (3/2)),
   ("business_value_score", .jnum 1), ("focus_summary_type", .jstr "Booking"),
   ("reason", .jstr "r")]

/-- A raw response with `focus_summary_type = "Unknown"`. -/
def badTypeRecord : JObject :=
  [("needs_reply", .jbool true), ("time_sensitive_score", .jnum 1),
   ("business_value_score", .jnum 1), ("focus_summary_type", .jstr "Unknown"),
   ("reason", .jstr "r")]

/-- A raw response with an empty reason. -/
def emptyReasonRecord : JObject :=
  [("needs_reply", .jbool true), ("time_sensitive_score", .jnum 1),
   ("business_value_score", .jnum 1), ("focus_summary_type", .jstr "Booking"),
   ("reason", .jstr "")]

/-- Witness for C5: the concrete acceptance and rejection checks the spec
names, obtained by applying the contract at the four sample records. -/
theorem validator_contract_witness :
    (∃ c, validateClassification validRecord = .ok c) ∧
    (∃ e, validateClassification badScoreRecord = .error e) ∧
    (∃ e, validateClassification badTypeRecord = .error e) ∧
    (∃ e, validateClassification emptyReasonRecord = .error e) := by
  refine ⟨(validator_contract validRecord).1.mpr ?_,
          (validator_contract badScoreRecord).2.1.mpr ?_,
          (validator_contract badTypeRecord).2.1.mpr ?_,
          (validator_contract emptyReasonRecord).2.1.mpr ?_⟩
  · exact ⟨⟨true, rfl⟩, ⟨1, rfl, by norm_num⟩, ⟨0, rfl, by norm_num⟩,
           ⟨"Booking", rfl, by decide⟩, ⟨"Urgent booking request", rfl, by decide⟩⟩
  · rintro ⟨-, ⟨q, hq, -, hle⟩, -, -, -⟩
    have : q = 3/2 := by
      have : some (JValue.jnum (3/2)) = some (JValue.jnum q) := by
        rw [← hq]; rfl
      simpa using this.symm
    rw [this] at hle
    norm_num at hle
  · rintro ⟨-, -, -, ⟨s, hs, hsmem⟩, -⟩
    have : s = "Unknown" := by
      have : some (JValue.jstr "Unknown") = some (JValue.jstr s) := by
        rw [← hs]; rfl
      simpa using this.symm
    rw [this] at hsmem
    exact absurd hsmem (by decide)
  · rintro ⟨-, -, -, -, ⟨r, hr, hrne⟩⟩
    have : r = "" := by
      have : some (JValue.jstr "") = some (JValue.jstr r) := by
        rw [← hr]; rfl
      simpa using this.symm
    exact hrne this

/-! ### The two result paths of the `/classify` handler -/

/-- On the llm path the handler parses the model reply and returns whatever
`validateClassification` accepts. -/
def llmFinalResult (raw : JObject) : Except String Classification :=
  validateClassification raw

/-- Helper: the four-value tier score set is contained in `[0, 1]`. -/
theorem score_set_bounds (q : ℚ) (h : q ∈ ([0, 2/5, 7/10, 1] : List ℚ)) :
    0 ≤ q ∧ q ≤ 1 := by
  simp only [List.mem_cons, List.not_mem_nil, or_false] at h
  rcases h with rfl | rfl | rfl | rfl <;> norm_num

/-- Helper: a resolved business-value score is one of the four tier
scores. -/
theorem classifyBusinessValue_mem (text lower : List Char) (q : ℚ)
    (h : classifyBusinessValue text lower = some q) :
    q ∈ ([0, 2/5, 7/10, 1] : List ℚ) := by
  unfold classifyBusinessValue at h
  split_ifs at h <;> simp only [Option.some.injEq] at h <;> subst h <;>
    norm_num [BUSINESS_HIGH_VALUE, BUSINESS_MEDIUM_HIGH_VALUE, BUSINESS_MEDIUM_VALUE,
      BUSINESS_LOW_VALUE]

/-- Helper: a resolved time-sensitivity score is one of the four tier
scores. -/
theorem classifyTimeSensitivity_mem (text lower : List Char) (q : ℚ)
    (h : classifyTimeSensitivity text lower = some q) :
    q ∈ ([0, 2/5, 7/10, 1] : List ℚ) := by
  unfold classifyTimeSensitivity at h
  split_ifs at h <;> simp only [Option.some.injEq] at h <;> subst h <;>
    norm_num [TIME_URGENT, TIME_SOON, TIME_PLANNING, TIME_CASUAL]

/-- Helper: a resolved focus type is one of the eight schema categories. -/
theorem classifyFocusType_mem (text lower : List Char) (t : String)
    (h : classifyFocusType text lower = some t) : t ∈ FocusSummaryTypes := by
  unfold classifyFocusType at h
  rcases Option.map_eq_some'.mp h with ⟨p, hp, rfl⟩
  have hmem := List.mem_of_find?_eq_some hp
  simp only [businessTiers, BUSINESS_HIGH_VALUE, BUSINESS_MEDIUM_HIGH_VALUE,
    BUSINESS_MEDIUM_VALUE, BUSINESS_LOW_VALUE, List.flatMap_cons, List.flatMap_nil,
    List.append_nil, List.mem_append, List.mem_cons, List.not_mem_nil, or_false]
    at hmem
  rcases hmem with ((rfl | rfl | rfl | rfl) | (rfl | rfl | rfl | rfl) | rfl | rfl) <;>
    decide

/-- Helper: under the conclusive hypothesis, the promoted heuristic result
has tier scores and a schema category. -/
theorem heuristicFinal_fields_mem (text : List Char)
    (h : isHeuristicConclusive (heuristicClassify text) = true) :
    (heuristicFinalResult text).business_value_score ∈ ([0, 2/5, 7/10, 1] : List ℚ) ∧
    (heuristicFinalResult text).time_sensitive_score ∈ ([0, 2/5, 7/10, 1] : List ℚ) ∧
    (heuristicFinalResult text).focus_summary_type ∈ FocusSummaryTypes := by
  simp only [isHeuristicConclusive, Bool.and_eq_true] at h
  obtain ⟨⟨⟨hbv, hts⟩, hnr⟩, hft⟩ := h
  rcases Option.isSome_iff_exists.mp hbv with ⟨qb, hqb⟩
  rcases Option.isSome_iff_exists.mp hts with ⟨qt, hqt⟩
  rcases Option.isSome_iff_exists.mp hft with ⟨ty, hty⟩
  have hb' : (heuristicFinalResult text).business_value_score = qb := by
    simp [heuristicFinalResult, hqb]
  have ht' : (heuristicFinalResult text).time_sensitive_score = qt := by
    simp [heuristicFinalResult, hqt]
  have hf' : (heuristicFinalResult text).focus_summary_type = ty := by
    simp [heuristicFinalResult, hty]
  rw [hb', ht', hf']
  exact ⟨classifyBusinessValue_mem _ _ _ hqb, classifyTimeSensitivity_mem _ _ _ hqt,
         classifyFocusType_mem _ _ _ hty⟩

/-- A raw model reply with `time_sensitive_score = 0.5`: it passes schema
validation, so the llm path returns it. -/
def halfScoreRecord : JObject :=
  [("needs_reply", .jbool true), ("time_sensitive_score", .jnum (1/2)),
   ("business_value_score", .jnum (1/2)), ("focus_summary_type", .jstr "General"),
   ("reason", .jstr "Mixed signals")]

/-- C4 counterexample: the llm path returns a classification whose scores
are not in the four-value tier set — the validator only enforces the range
`[0, 1]`, so `0.5` is returned to the caller. -/
theorem llm_path_score_outside_tier_set :
    ∃ c, llmFinalResult halfScoreRecord = .ok c ∧
      c.time_sensitive_score = 1/2 ∧
      c.time_sensitive_score ∉ ([0, 2/5, 7/10, 1] : List ℚ) ∧
      c.business_value_score ∉ ([0, 2/5, 7/10, 1] : List ℚ) := by
  refine ⟨{ needs_reply := true, time_sensitive_score := 1/2,
            business_value_score := 1/2, focus_summary_type := "General",
            reason := "Mixed signals" }, ?_, rfl, ?_, ?_⟩
  · rw [llmFinalResult, validate_eq_ok]
    exact ⟨(getBoolField_eq_ok _ _ _).mpr rfl,
           (getScoreField_eq_ok _ _ _).mpr ⟨rfl, by norm_num⟩,
           (getScoreField_eq_ok _ _ _).mpr ⟨rfl, by norm_num⟩,
           (getEnumField_eq_ok _ _ _).mpr ⟨rfl, by decide⟩,
           (getReasonField_eq_ok _ _ _).mpr ⟨rfl, by decide⟩⟩
  · simp only [List.mem_cons, List.not_mem_nil, or_false]
    norm_num
  · simp only [List.mem_cons, List.not_mem_nil, or_false]
    norm_num

/-- C4 amended: a heuristic-path result always has both scores in the
closed tier set {0, 0.4, 0.7, 1}; an llm-path result is only guaranteed
scores within `[0, 1]`. -/
theorem returned_scores_contract (text : List Char) (raw : JObject)
    (c : Classification)
    (hh : isHeuristicConclusive (heuristicClassify text) = true)
    (hl : llmFinalResult raw = .ok c) :
    ((heuristicFinalResult text).business_value_score ∈ ([0, 2/5, 7/10, 1] : List ℚ) ∧
     (heuristicFinalResult text).time_sensitive_score ∈ ([0, 2/5, 7/10, 1] : List ℚ)) ∧
    (0 ≤ c.time_sensitive_score ∧ c.time_sensitive_score ≤ 1 ∧
     0 ≤ c.business_value_score ∧ c.business_value_score ≤ 1) := by
  have hm := heuristicFinal_fields_mem text hh
  refine ⟨⟨hm.1, hm.2.1⟩, ?_⟩
  rw [llmFinalResult, validate_eq_ok] at hl
  have h2 := (getScoreField_eq_ok _ _ _).mp hl.2.1
  have h3 := (getScoreField_eq_ok _ _ _).mp hl.2.2.1
  exact ⟨h2.2.1, h2.2.2, h3.2.1, h3.2.2⟩

/-- Witness for the amended C4 at a conclusive message and an accepted raw
record. -/
theorem returned_scores_contract_witness :
    isHeuristicConclusive
      (heuristicClassify "Need to book you for Friday ASAP! Can you confirm?".toList)
      = true ∧
    llmFinalResult validRecord = .ok
      { needs_reply := true, time_sensitive_score := 1, business_value_score := 0,
        focus_summary_type := "Booking", reason := "Urgent booking request" } ∧
    0 ≤ ({ needs_reply := true, time_sensitive_score := 1, business_value_score := 0,
           focus_summary_type := "Booking",
           reason := "Urgent booking request" } : Classification).time_sensitive_score := by
  have hval : llmFinalResult validRecord = .ok
      { needs_reply := true, time_sensitive_score := 1, business_value_score := 0,
        focus_summary_type := "Booking", reason := "Urgent booking request" } := by
    rw [llmFinalResult, validate_eq_ok]
    exact ⟨(getBoolField_eq_ok _ _ _).mpr rfl,
           (getScoreField_eq_ok _ _ _).mpr ⟨rfl, by norm_num⟩,
           (getScoreField_eq_ok _ _ _).mpr ⟨rfl, by norm_num⟩,
           (getEnumField_eq_ok _ _ _).mpr ⟨rfl, by decide⟩,
           (getReasonField_eq_ok _ _ _).mpr ⟨rfl, by decide⟩⟩
  refine ⟨by decide, hval, ?_⟩
  exact (returned_scores_contract
    "Need to book you for Friday ASAP! Can you confirm?".toList validRecord _
    (by decide) hval).2.1

/-- C10: the conclusive heuristic path, though never passed through the
validator, always satisfies the full result schema: tier scores inside
`[0, 1]` and in the four-value set, a valid category, and a non-empty
synthesized reason. -/
theorem heuristic_path_schema_valid (text : List Char)
    (h : isHeuristicConclusive (heuristicClassify text) = true) :
    (heuristicFinalResult text).business_value_score ∈ ([0, 2/5, 7/10, 1] : List ℚ) ∧
    (heuristicFinalResult text).time_sensitive_score ∈ ([0, 2/5, 7/10, 1] : List ℚ) ∧
    (0 ≤ (heuristicFinalResult text).business_value_score ∧
      (heuristicFinalResult text).business_value_score ≤ 1) ∧
    (0 ≤ (heuristicFinalResult text).time_sensitive_score ∧
      (heuristicFinalResult text).time_sensitive_score ≤ 1) ∧
    (heuristicFinalResult text).focus_summary_type ∈ FocusSummaryTypes ∧
    (heuristicFinalResult text).reason ≠ "" := by
  have hm := heuristicFinal_fields_mem text h
  refine ⟨hm.1, hm.2.1, score_set_bounds _ hm.1, score_set_bounds _ hm.2.1, hm.2.2, ?_⟩
  intro hemp
  have hlen : (heuristicFinalResult text).reason.length = 0 := by rw [hemp]; rfl
  rw [heuristicFinalResult] at hlen
  simp only [String.length_append] at hlen
  have h1 : ("Pattern-matched as ").length = 19 := rfl
  have h2 : (" with clear indicators").length = 22 := rfl
  rw [h1, h2] at hlen
  omega

/-- Witness for C10 at a concrete conclusive message. -/
theorem heuristic_path_schema_valid_witness :
    isHeuristicConclusive
      (heuristicClassify "Need to book you for Friday ASAP now!".toList) = true ∧
    (heuristicFinalResult "Need to book you for Friday ASAP now!".toList).reason ≠ "" :=
  ⟨by decide,
   (heuristic_path_schema_valid "Need to book you for Friday ASAP now!".toList
     (by decide)).2.2.2.2.2⟩

/-! ### Similarity theorems (C6, C7) -/

theorem sumSq_nonneg (a : List ℝ) : 0 ≤ sumSq a := by
  apply List.sum_nonneg
  intro x hx
  rcases List.mem_map.mp hx with ⟨y, -, rfl⟩
  exact mul_self_nonneg y

/-- Helper: on equal-length vectors `cosine` never throws and returns
`cosineVal`. -/
theorem cosine_ok_of_length_eq (a b : List ℝ) (h : a.length = b.length) :
    cosine a b = .ok (cosineVal a b) := by
  unfold cosine cosineVal
  rw [if_neg (by simp [h])]
  split_ifs <;> rfl

theorem dotList_self (v : List ℝ) : dotList v v = sumSq v := by
  induction v with
  | nil => rfl
  | cons x xs ih =>
      unfold dotList sumSq at ih ⊢
      simp only [List.zipWith_cons_cons, List.map_cons, List.sum_cons]
      rw [ih]

theorem normE_replicate_zero (n : ℕ) : normE (List.replicate n (0:ℝ)) = 0 := by
  unfold normE sumSq
  rw [List.map_replicate]
  norm_num [List.sum_replicate, Real.sqrt_zero]

/-- C6: `cosine` throws exactly on a length mismatch; on equal lengths it
returns the dot product over the product of Euclidean norms, with value 0
when either norm is zero; hence a vector of nonzero norm has similarity 1
with itself, and similarity with the all-zero vector is 0. -/
theorem cosine_contract (a b v : List ℝ) :
    (a.length ≠ b.length → cosine a b = .error "Vectors must have the same length") ∧
    (a.length = b.length → cosine a b = .ok (cosineVal a b)) ∧
    (normE v ≠ 0 → cosine v v = .ok 1) ∧
    cosine v (List.replicate v.length (0:ℝ)) = .ok 0 := by
  refine ⟨?_, fun h => cosine_ok_of_length_eq a b h, ?_, ?_⟩
  · intro h
    unfold cosine
    rw [if_pos h]
  · intro hnz
    rw [cosine_ok_of_length_eq v v rfl]
    unfold cosineVal
    rw [if_neg (by simp [hnz])]
    rw [dotList_self]
    have hss : sumSq v ≠ 0 := by
      intro h0
      apply hnz
      unfold normE
      rw [h0, Real.sqrt_zero]
    rw [show normE v * normE v = sumSq v from Real.mul_self_sqrt (sumSq_nonneg v)]
    exact congrArg Except.ok (div_self hss)
  · rw [cosine_ok_of_length_eq v _ (List.length_replicate _ _).symm]
    unfold cosineVal
    rw [if_pos (Or.inr (normE_replicate_zero _))]

/-- Witness for C6: a concrete mismatch throws, and the vector (3, 4) has
self-similarity exactly 1. -/
theorem cosine_contract_witness :
    (([1, 2] : List ℝ).length ≠ ([1] : List ℝ).length) ∧
    cosine ([1, 2] : List ℝ) [1] = .error "Vectors must have the same length" ∧
    (normE ([3, 4] : List ℝ) ≠ 0) ∧
    cosine ([3, 4] : List ℝ) [3, 4] = .ok 1 := by
  have hne : (([1, 2] : List ℝ)).length ≠ (([1] : List ℝ)).length := by simp
  have hnz : normE ([3, 4] : List ℝ) ≠ 0 := by
    have hss : sumSq ([3, 4] : List ℝ) = 25 := by
      unfold sumSq
      norm_num
    unfold normE
    rw [hss, Real.sqrt_ne_zero']
    norm_num
  exact ⟨hne, (cosine_contract [1, 2] [1] [3, 4]).1 hne, hnz,
         (cosine_contract [1, 2] [1] [3, 4]).2.2.1 hnz⟩

/-- Helper: `mapM` over `Except` succeeds pointwise. -/
theorem mapM_ok_of_forall {α β : Type} (f : α → Except String β) (g : α → β)
    (l : List α) (h : ∀ x ∈ l, f x = .ok (g x)) :
    l.mapM f = .ok (l.map g) := by
  induction l with
  | nil => rfl
  | cons x xs ih =>
      rw [List.mapM_cons, h x (by simp), ih (fun y hy => h y (by simp [hy]))]
      rfl

theorem hitLE_trans (a b c : SimilarityHit) (h1 : hitLE a b = true)
    (h2 : hitLE b c = true) : hitLE a c = true := by
  unfold hitLE at h1 h2 ⊢
  simp only [decide_eq_true_eq] at h1 h2 ⊢
  exact le_trans h2 h1

theorem hitLE_total (a b : SimilarityHit) : (hitLE a b || hitLE b a) = true := by
  unfold hitLE
  simp only [Bool.or_eq_true, decide_eq_true_eq]
  exact le_total b.similarity a.similarity

/-- C7: on an empty corpus the retriever returns the empty list without
error; otherwise (given the equal-length precondition on the stored
embeddings) it returns at most `k` hits, sorted by non-increasing
similarity, each drawn from a corpus example together with its cosine
similarity to the message embedding. -/
theorem retrieval_contract (corpus : List CorpusExample) (msg : String)
    (emb : List ℝ) (k : Nat)
    (hlen : ∀ ex ∈ corpus, ex.embedding.length = emb.length) :
    (corpus = [] → findSimilarExamples corpus msg emb k = .ok []) ∧
    ∃ hits, findSimilarExamples corpus msg emb k = .ok hits ∧
      hits.length ≤ k ∧
      hits.Pairwise (fun h1 h2 => h2.similarity ≤ h1.similarity) ∧
      ∀ h ∈ hits, ∃ ex ∈ corpus, h.message = ex.message ∧
        h.classification = ex.classification ∧
        cosine ex.embedding emb = .ok h.similarity := by
  constructor
  · intro h
    subst h
    rfl
  · by_cases hc : corpus = []
    · subst hc
      exact ⟨[], rfl, by simp, by simp, by simp⟩
    · have hmapM : corpus.mapM (hitOfExample emb) = .ok (corpus.map (hitG emb)) := by
        apply mapM_ok_of_forall
        intro ex hex
        unfold hitOfExample
        rw [cosine_ok_of_length_eq _ _ (hlen ex hex)]
        rfl
      have hrun : findSimilarExamples corpus msg emb k =
          .ok (((corpus.map (hitG emb)).mergeSort hitLE).take k) := by
        unfold findSimilarExamples
        rw [if_neg (by simp [hc]), hmapM]
      refine ⟨_, hrun, List.length_take_le _ _, ?_, ?_⟩
      · have hs := List.sorted_mergeSort hitLE_trans hitLE_total (corpus.map (hitG emb))
        have hs' : ((corpus.map (hitG emb)).mergeSort hitLE).Pairwise
            (fun h1 h2 => h2.similarity ≤ h1.similarity) := by
          refine hs.imp ?_
          intro x y hxy
          unfold hitLE at hxy
          exact of_decide_eq_true hxy
        exact hs'.sublist (List.take_sublist _ _)
      · intro h hh
        have h1 : h ∈ (corpus.map (hitG emb)).mergeSort hitLE :=
          (List.take_sublist _ _).subset hh
        have h2 : h ∈ corpus.map (hitG emb) :=
          (List.mergeSort_perm _ hitLE).subset h1
        rcases List.mem_map.mp h2 with ⟨ex, hex, rfl⟩
        exact ⟨ex, hex, rfl, rfl, cosine_ok_of_length_eq _ _ (hlen ex hex)⟩

/-- Witness for C7: requesting three examples from the empty corpus returns
the empty sequence without an error. -/
theorem retrieval_contract_witness :
    findSimilarExamples [] "m" ([3] : List ℝ) 3 = .ok [] :=
  (retrieval_contract [] "m" [3] 3 (by simp)).1 rfl

end MessageClassifier
